import Mathlib

/-!
Verification of the NUMA portability layer in src/port/pg_numa.c.

The C file is compiled in one of two variants selected by the USE_LIBNUMA
preprocessor symbol (and, inside the stub variant, by WIN32 for the page-size
source).  We embed both variants at once: every operation takes a
`BuildConfig` recording the preprocessor selection, a `HostEnv` holding the
values the surrounding platform delivers (results of numa_available,
numa_max_node, numa_move_pages, sysconf, GetSystemInfo and GetHugePageSize),
and a `GlobalState` holding the mutable process state the file can observe
(the huge_pages_status setting, errno, and the diagnostic log written by
ereport/elog).  Each operation returns its C return value together with the
global state after the call, so frame properties are statements about the
returned state.
-/

/-- Enumeration of huge-page configuration states, mirroring the
HugePagesType values that the global variable huge_pages_status (declared in
storage/pg_shmem.h) ranges over: HUGE_PAGES_OFF, HUGE_PAGES_ON,
HUGE_PAGES_TRY and HUGE_PAGES_UNKNOWN. -/
inductive HugePagesStatus where
  | HUGE_PAGES_OFF
  | HUGE_PAGES_ON
  | HUGE_PAGES_TRY
  | HUGE_PAGES_UNKNOWN
  deriving DecidableEq, Repr

/-- Severity of a diagnostic message emitted through ereport/elog.  The file
only ever emits WARNING, which is non-fatal: control returns to the caller. -/
inductive ElogLevel where
  | WARNING
  | ERROR
  | FATAL
  deriving DecidableEq, Repr

/-- Preprocessor selection under which pg_numa.c was compiled:
`use_libnuma` is the USE_LIBNUMA symbol, `win32` the WIN32 symbol (the
latter only matters in the stub variant's pg_numa_get_pagesize). -/
structure BuildConfig where
  use_libnuma : Bool
  win32 : Bool
  deriving DecidableEq, Repr

/-- Values delivered by the platform underneath pg_numa.c.  The fields are
snapshots of what the external calls return on the current host:
`numa_available_result` is the return value of numa_available(3);
`numa_max_node_result` is the return value of numa_max_node(3), i.e. the
highest-numbered NUMA node available on the system;
`numa_move_pages` maps the (pid, count, pages, status) arguments to the
return code of numa_move_pages(3) and the node classifications it stores
into the status array; `sc_pagesize` is sysconf(_SC_PAGESIZE);
`win_dwPageSize` is the dwPageSize field filled in by GetSystemInfo on
Windows; `huge_page_size` is the size stored by GetHugePageSize. -/
structure HostEnv where
  numa_available_result : Int
  numa_max_node_result : Int
  numa_move_pages : Int → Nat → List Nat → List Int → Int × List Int
  sc_pagesize : Nat
  win_dwPageSize : Nat
  huge_page_size : Nat

/-- Mutable process state visible to pg_numa.c: the huge_pages_status
setting it reads, the errno variable, and the diagnostic channel that
ereport/elog append to. -/
structure GlobalState where
  huge_pages_status : HugePagesStatus
  errno : Int
  log : List (ElogLevel × String)
  deriving DecidableEq, Repr

/-- Embedding of pg_numa_init.  With USE_LIBNUMA it forwards the result of
numa_available(); without it the stub returns the sentinel -1. -/
def pg_numa_init (b : BuildConfig) (env : HostEnv) (s : GlobalState) :
    Int × GlobalState :=
  if b.use_libnuma then (env.numa_available_result, s) else (-1, s)

/-- Embedding of pg_numa_query_pages.  With USE_LIBNUMA it forwards to
numa_move_pages(pid, count, pages, NULL, status, 0), whose return code and
updated status array come from the environment; the pages array is only
read.  Without USE_LIBNUMA the stub returns 0 and touches nothing.  The
result is ((return value, pages array after the call, status array after
the call), global state after the call). -/
def pg_numa_query_pages (b : BuildConfig) (env : HostEnv) (pid : Int)
    (count : Nat) (pages : List Nat) (status : List Int) (s : GlobalState) :
    (Int × List Nat × List Int) × GlobalState :=
  if b.use_libnuma then
    let r := env.numa_move_pages pid count pages status
    ((r.1, pages, r.2), s)
  else
    ((0, pages, status), s)

/-- Embedding of pg_numa_get_max_node.  With USE_LIBNUMA it forwards the
result of numa_max_node(); without it the stub returns 0. -/
def pg_numa_get_max_node (b : BuildConfig) (env : HostEnv) (s : GlobalState) :
    Int × GlobalState :=
  if b.use_libnuma then (env.numa_max_node_result, s) else (0, s)

/-- Operating-system default page size as pg_numa_get_pagesize obtains it
before any huge-page adjustment: sysconf(_SC_PAGESIZE) in the libnuma
variant and in the non-Windows stub, GetSystemInfo's dwPageSize in the
Windows stub. -/
def pg_numa_os_page_size (b : BuildConfig) (env : HostEnv) : Nat :=
  if b.use_libnuma then env.sc_pagesize
  else if b.win32 then env.win_dwPageSize
  else env.sc_pagesize

/-- Embedding of pg_numa_get_pagesize (both variants share this shape):
os_page_size is first read from the platform, then, exactly when
huge_pages_status equals HUGE_PAGES_ON, GetHugePageSize overwrites it with
the huge-page size. -/
def pg_numa_get_pagesize (b : BuildConfig) (env : HostEnv) (s : GlobalState) :
    Nat × GlobalState :=
  let os_page_size := pg_numa_os_page_size b env
  let os_page_size :=
    if s.huge_pages_status = HugePagesStatus.HUGE_PAGES_ON then
      env.huge_page_size
    else os_page_size
  (os_page_size, s)

/-- Embedding of the SQL-callable pg_numa_available: it returns the boolean
pg_numa_init() != -1. -/
def pg_numa_available (b : BuildConfig) (env : HostEnv) (s : GlobalState) :
    Bool × GlobalState :=
  ((pg_numa_init b env s).1 != -1, s)

/-- Embedding of the numa_warn callback.  The formatted message `msg` is the
result of rendering the fmt/varargs pair; `clobber` is whatever value the
intermediate formatting and reporting machinery leaves in errno before the
function restores the saved value.  The function saves errno, emits the
message at WARNING level on the diagnostic channel, and restores errno. -/
def numa_warn (clobber : Int) (msg : String) (s : GlobalState) : GlobalState :=
  let olde := s.errno
  let s1 : GlobalState :=
    { s with
      errno := clobber
      log := s.log ++ [(ElogLevel.WARNING, "libnuma: WARNING: " ++ msg)] }
  { s1 with errno := olde }

/-- Embedding of the numa_error callback.  `whr` is the location string the
library passes; `clobber` is whatever value elog leaves in errno before the
function restores the saved value.  The function saves errno, emits the
message at WARNING level, and restores errno. -/
def numa_error (clobber : Int) (whr : String) (s : GlobalState) : GlobalState :=
  let olde := s.errno
  let s1 : GlobalState :=
    { s with
      errno := clobber
      log := s.log ++ [(ElogLevel.WARNING, "libnuma: ERROR: " ++ whr)] }
  { s1 with errno := olde }

/-- Build configuration of a build without libnuma on a non-Windows host. -/
def stubBuild : BuildConfig := ⟨false, false⟩

/-- Build configuration of a build with libnuma. -/
def libnumaBuild : BuildConfig := ⟨true, false⟩

/-- Concrete sample host environment used by the witness theorems. -/
def sampleEnv : HostEnv where
  numa_available_result := 0
  numa_max_node_result := 3
  numa_move_pages := fun _ _ _ status => (0, status)
  sc_pagesize := 4096
  win_dwPageSize := 4096
  huge_page_size := 2097152

/-- Concrete sample global state used by the witness theorems. -/
def sampleState : GlobalState := ⟨HugePagesStatus.HUGE_PAGES_OFF, 7, []⟩

/-- C1: the availability check reports whether NUMA topology information can
be obtained: pg_numa_available returns true exactly when pg_numa_init
returns a value different from -1, and on builds without libnuma
pg_numa_init returns the sentinel -1 unconditionally.  Both are total
functions of the build, environment and state, so neither raises an
error. -/
theorem availability_check_spec (b : BuildConfig) (env : HostEnv)
    (s : GlobalState) :
    ((pg_numa_available b env s).1 = true ↔ (pg_numa_init b env s).1 ≠ -1)
    ∧ (b.use_libnuma = false → (pg_numa_init b env s).1 = -1) := by
  refine ⟨?_, ?_⟩
  · simp [pg_numa_available, bne_iff_ne]
  · intro h
    simp [pg_numa_init, h]

/-- Witness for C1: on the stub build the sentinel -1 is observed at a
concrete input. -/
theorem availability_check_spec_witness :
    (pg_numa_init stubBuild sampleEnv sampleState).1 = -1 :=
  (availability_check_spec stubBuild sampleEnv sampleState).2 rfl

/-- C2: on a build without libnuma, pg_numa_query_pages returns 0 for every
input (any pid, any count including a non-empty batch, any pages array, any
status array, any state). -/
theorem query_pages_stub_returns_zero (b : BuildConfig) (env : HostEnv)
    (pid : Int) (count : Nat) (pages : List Nat) (status : List Int)
    (s : GlobalState) (h : b.use_libnuma = false) :
    (pg_numa_query_pages b env pid count pages status s).1.1 = 0 := by
  simp [pg_numa_query_pages, h]

/-- Witness for C2: a concrete non-empty batch of three pages on the stub
build yields return value 0. -/
theorem query_pages_stub_returns_zero_witness :
    (pg_numa_query_pages stubBuild sampleEnv 42 3 [4096, 8192, 12288]
      [0, 0, 0] sampleState).1.1 = 0 :=
  query_pages_stub_returns_zero stubBuild sampleEnv 42 3 [4096, 8192, 12288]
    [0, 0, 0] sampleState rfl

/-- C3: pg_numa_get_max_node forwards the highest-numbered NUMA node
reported by the platform library (numa_max_node) on libnuma builds, and
returns zero unconditionally on builds without libnuma, where topology
information is unavailable. -/
theorem max_node_spec (b : BuildConfig) (env : HostEnv) (s : GlobalState) :
    (b.use_libnuma = true →
      (pg_numa_get_max_node b env s).1 = env.numa_max_node_result)
    ∧ (b.use_libnuma = false → (pg_numa_get_max_node b env s).1 = 0) := by
  refine ⟨?_, ?_⟩ <;> intro h <;> simp [pg_numa_get_max_node, h]

/-- Witness for C3: both conjuncts observed at concrete inputs, the stub
build returning 0. -/
theorem max_node_spec_witness :
    (pg_numa_get_max_node stubBuild sampleEnv sampleState).1 = 0 :=
  (max_node_spec stubBuild sampleEnv sampleState).2 rfl

/-- C4: pg_numa_get_pagesize returns the operating system's page size, and
when huge_pages_status equals HUGE_PAGES_ON the returned value is the
huge-page size, an upward adjustment since a huge page is at least as large
as the default page. -/
theorem pagesize_spec (b : BuildConfig) (env : HostEnv) (s : GlobalState)
    (hup : pg_numa_os_page_size b env ≤ env.huge_page_size) :
    (s.huge_pages_status ≠ HugePagesStatus.HUGE_PAGES_ON →
      (pg_numa_get_pagesize b env s).1 = pg_numa_os_page_size b env)
    ∧ (s.huge_pages_status = HugePagesStatus.HUGE_PAGES_ON →
      (pg_numa_get_pagesize b env s).1 = env.huge_page_size
      ∧ pg_numa_os_page_size b env ≤ (pg_numa_get_pagesize b env s).1) := by
  refine ⟨?_, ?_⟩ <;> intro h <;> simp [pg_numa_get_pagesize, h, hup]

/-- Witness for C4: with huge pages on, a concrete call returns the
huge-page size 2097152, which is at least the default 4096. -/
theorem pagesize_spec_witness :
    (pg_numa_get_pagesize stubBuild sampleEnv
      ⟨HugePagesStatus.HUGE_PAGES_ON, 7, []⟩).1 = sampleEnv.huge_page_size
    ∧ pg_numa_os_page_size stubBuild sampleEnv ≤
      (pg_numa_get_pagesize stubBuild sampleEnv
        ⟨HugePagesStatus.HUGE_PAGES_ON, 7, []⟩).1 :=
  (pagesize_spec stubBuild sampleEnv ⟨HugePagesStatus.HUGE_PAGES_ON, 7, []⟩
    (by decide)).2 rfl

/-- C5: whenever the host delivers positive power-of-two page sizes (the
default page size, the Windows page size and the huge-page size are each a
power of two), pg_numa_get_pagesize returns a positive power of two, equal
to the host's default page size, or to the huge-page size when huge pages
are enabled. -/
theorem pagesize_power_of_two (b : BuildConfig) (env : HostEnv)
    (s : GlobalState)
    (h1 : ∃ k, env.sc_pagesize = 2 ^ k)
    (h2 : ∃ k, env.win_dwPageSize = 2 ^ k)
    (h3 : ∃ k, env.huge_page_size = 2 ^ k) :
    0 < (pg_numa_get_pagesize b env s).1
    ∧ (∃ k, (pg_numa_get_pagesize b env s).1 = 2 ^ k)
    ∧ (s.huge_pages_status = HugePagesStatus.HUGE_PAGES_ON →
        (pg_numa_get_pagesize b env s).1 = env.huge_page_size)
    ∧ (s.huge_pages_status ≠ HugePagesStatus.HUGE_PAGES_ON →
        (pg_numa_get_pagesize b env s).1 = pg_numa_os_page_size b env) := by
  obtain ⟨k1, e1⟩ := h1
  obtain ⟨k2, e2⟩ := h2
  obtain ⟨k3, e3⟩ := h3
  have hval : (pg_numa_get_pagesize b env s).1 =
      if s.huge_pages_status = HugePagesStatus.HUGE_PAGES_ON
      then env.huge_page_size else pg_numa_os_page_size b env := rfl
  have hos : ∃ k, pg_numa_os_page_size b env = 2 ^ k := by
    by_cases hl : b.use_libnuma
    · exact ⟨k1, by simp [pg_numa_os_page_size, hl, e1]⟩
    · by_cases hw : b.win32
      · exact ⟨k2, by simp [pg_numa_os_page_size, hl, hw, e2]⟩
      · exact ⟨k1, by simp [pg_numa_os_page_size, hl, hw, e1]⟩
  have hpow : ∃ k, (pg_numa_get_pagesize b env s).1 = 2 ^ k := by
    rw [hval]
    by_cases hon : s.huge_pages_status = HugePagesStatus.HUGE_PAGES_ON
    · exact ⟨k3, by simp [hon, e3]⟩
    · simpa [hon] using hos
  obtain ⟨k, ek⟩ := hpow
  refine ⟨?_, ⟨k, ek⟩, ?_, ?_⟩
  · rw [ek]; exact Nat.pos_pow_of_pos k (by decide)
  · intro h; simp [pg_numa_get_pagesize, h]
  · intro h; simp [pg_numa_get_pagesize, h]

/-- Witness for C5: with the sample host sizes 4096 = 2 ^ 12 and
2097152 = 2 ^ 21 the returned value is positive and a power of two. -/
theorem pagesize_power_of_two_witness :
    0 < (pg_numa_get_pagesize stubBuild sampleEnv sampleState).1
    ∧ (∃ k, (pg_numa_get_pagesize stubBuild sampleEnv sampleState).1 = 2 ^ k)
    ∧ (sampleState.huge_pages_status = HugePagesStatus.HUGE_PAGES_ON →
        (pg_numa_get_pagesize stubBuild sampleEnv sampleState).1 =
          sampleEnv.huge_page_size)
    ∧ (sampleState.huge_pages_status ≠ HugePagesStatus.HUGE_PAGES_ON →
        (pg_numa_get_pagesize stubBuild sampleEnv sampleState).1 =
          pg_numa_os_page_size stubBuild sampleEnv) :=
  pagesize_power_of_two stubBuild sampleEnv sampleState
    ⟨12, rfl⟩ ⟨12, rfl⟩ ⟨21, rfl⟩

/-- C6: the logging adapters numa_warn and numa_error re-emit the library's
messages as non-fatal WARNING-level diagnostics and preserve the caller's
error state: for every invocation and every initial errno value (and every
value the intermediate machinery may leave in errno), errno after the call
equals errno before the call, and the only visible effect is one appended
WARNING entry on the diagnostic channel. -/
theorem logging_adapters_preserve_errno (cw ce : Int) (m whr : String)
    (s : GlobalState) :
    ((numa_warn cw m s).errno = s.errno
      ∧ (numa_warn cw m s).log =
          s.log ++ [(ElogLevel.WARNING, "libnuma: WARNING: " ++ m)]
      ∧ (numa_warn cw m s).huge_pages_status = s.huge_pages_status)
    ∧ ((numa_error ce whr s).errno = s.errno
      ∧ (numa_error ce whr s).log =
          s.log ++ [(ElogLevel.WARNING, "libnuma: ERROR: " ++ whr)]
      ∧ (numa_error ce whr s).huge_pages_status = s.huge_pages_status) := by
  refine ⟨⟨rfl, rfl, rfl⟩, rfl, rfl, rfl⟩

/-- C7: the layer is stateless between calls: each query operation leaves
the global state exactly as it found it, and a second call to the same
operation with the same arguments, run on the state the first call
returned, yields the same value as the first call. -/
theorem operations_stateless (b : BuildConfig) (env : HostEnv) (pid : Int)
    (count : Nat) (pages : List Nat) (status : List Int) (s : GlobalState) :
    ((pg_numa_init b env s).2 = s
      ∧ (pg_numa_init b env (pg_numa_init b env s).2).1 =
          (pg_numa_init b env s).1)
    ∧ ((pg_numa_available b env s).2 = s
      ∧ (pg_numa_available b env (pg_numa_available b env s).2).1 =
          (pg_numa_available b env s).1)
    ∧ ((pg_numa_query_pages b env pid count pages status s).2 = s
      ∧ (pg_numa_query_pages b env pid count pages status
          (pg_numa_query_pages b env pid count pages status s).2).1 =
          (pg_numa_query_pages b env pid count pages status s).1)
    ∧ ((pg_numa_get_max_node b env s).2 = s
      ∧ (pg_numa_get_max_node b env (pg_numa_get_max_node b env s).2).1 =
          (pg_numa_get_max_node b env s).1)
    ∧ ((pg_numa_get_pagesize b env s).2 = s
      ∧ (pg_numa_get_pagesize b env (pg_numa_get_pagesize b env s).2).1 =
          (pg_numa_get_pagesize b env s).1) := by
  have hinit : (pg_numa_init b env s).2 = s := by
    unfold pg_numa_init
    split <;> rfl
  have hquery : (pg_numa_query_pages b env pid count pages status s).2 = s := by
    unfold pg_numa_query_pages
    split <;> rfl
  have hmax : (pg_numa_get_max_node b env s).2 = s := by
    unfold pg_numa_get_max_node
    split <;> rfl
  refine ⟨⟨hinit, by rw [hinit]⟩, ⟨rfl, rfl⟩, ⟨hquery, by rw [hquery]⟩,
    ⟨hmax, by rw [hmax]⟩, rfl, rfl⟩

/-- C8: on a build without libnuma, pg_numa_query_pages writes through none
of its pointer arguments: for every input, the pages array and the status
array after the call are exactly the arrays passed in. -/
theorem query_pages_stub_frame (b : BuildConfig) (env : HostEnv) (pid : Int)
    (count : Nat) (pages : List Nat) (status : List Int) (s : GlobalState)
    (h : b.use_libnuma = false) :
    (pg_numa_query_pages b env pid count pages status s).1.2.1 = pages
    ∧ (pg_numa_query_pages b env pid count pages status s).1.2.2 = status := by
  refine ⟨?_, ?_⟩ <;> simp [pg_numa_query_pages, h]

/-- Witness for C8: on the stub build a concrete three-page batch comes back
with both arrays untouched. -/
theorem query_pages_stub_frame_witness :
    (pg_numa_query_pages stubBuild sampleEnv 42 3 [4096, 8192, 12288]
      [5, 6, 7] sampleState).1.2.1 = [4096, 8192, 12288]
    ∧ (pg_numa_query_pages stubBuild sampleEnv 42 3 [4096, 8192, 12288]
      [5, 6, 7] sampleState).1.2.2 = [5, 6, 7] :=
  query_pages_stub_frame stubBuild sampleEnv 42 3 [4096, 8192, 12288]
    [5, 6, 7] sampleState rfl

/-- C9: on a build without libnuma, pg_numa_available always returns false,
because the stub pg_numa_init unconditionally returns -1 whatever the host
hardware (any environment) looks like. -/
theorem stub_available_false (b : BuildConfig) (env : HostEnv)
    (s : GlobalState) (h : b.use_libnuma = false) :
    (pg_numa_available b env s).1 = false
    ∧ (pg_numa_init b env s).1 = -1 := by
  refine ⟨?_, ?_⟩ <;> simp [pg_numa_available, pg_numa_init, h]

/-- Witness for C9: the stub build reports unavailability on the concrete
sample host. -/
theorem stub_available_false_witness :
    (pg_numa_available stubBuild sampleEnv sampleState).1 = false
    ∧ (pg_numa_init stubBuild sampleEnv sampleState).1 = -1 :=
  stub_available_false stubBuild sampleEnv sampleState rfl

/-- C10: pg_numa_get_pagesize applies the huge-page adjustment only when
huge_pages_status is exactly HUGE_PAGES_ON; for every other status value
(off, try, or unknown) it returns the unadjusted operating-system default
page size. -/
theorem hugepage_adjust_only_when_on (b : BuildConfig) (env : HostEnv)
    (s : GlobalState) (h : s.huge_pages_status ≠ HugePagesStatus.HUGE_PAGES_ON) :
    (pg_numa_get_pagesize b env s).1 = pg_numa_os_page_size b env := by
  simp [pg_numa_get_pagesize, h]

/-- Witness for C10: with huge_pages_status set to HUGE_PAGES_TRY the
concrete call returns the unadjusted default page size. -/
theorem hugepage_adjust_only_when_on_witness :
    (pg_numa_get_pagesize libnumaBuild sampleEnv
      ⟨HugePagesStatus.HUGE_PAGES_TRY, 7, []⟩).1 =
      pg_numa_os_page_size libnumaBuild sampleEnv :=
  hugepage_adjust_only_when_on libnumaBuild sampleEnv
    ⟨HugePagesStatus.HUGE_PAGES_TRY, 7, []⟩ (by decide)
